import Mathlib

/-!
Verification of the ACR (access control record) reconciliation logic of
`plugins/modules/hpe_nimble_acr.py`.

The core of the module is two functions, `create_acr` and `delete_acr`, plus the
state dispatch in `main`.  Both functions talk to the remote array through a
client object (`client_obj.initiator_groups.get`, `client_obj.volumes.get`,
`client_obj.access_control_records.get/create/delete`).  We embed the remote
array as a pure `Store` (name-to-id tables plus the set of ACRs), and the
possibility of a remote call raising an exception as a `Faults` oracle that
says, per call, whether the call raises and with which message.  Each embedded
function returns the `(return_status, changed, msg)` triple of the Python
code, the store after the call, and the trace of remote API calls it issued.

The Python `try:`-block bodies are embedded as `create_acr_try` /
`delete_acr_try` returning `Except String ReconcileResult`; the enclosing
`except Exception as ex:` handlers are the surrounding `match` in `create_acr`
/ `delete_acr` that turn an `Except.error` into the
"... failed | <ex>" triple, exactly as lines 165-166 and 187-188 of the
source do.
-/

/-- The Ansible `state` parameter; `main` restricts it to the choices
`present`, `absent`, `create` (argument_spec, lines 194-198). -/
inductive DesiredState where
  | create
  | present
  | absent
deriving DecidableEq, Repr

/-- The string value of the `state` module parameter. -/
def DesiredState.str : DesiredState → String
  | .create => "create"
  | .present => "present"
  | .absent => "absent"

/-- A remote object as returned by a lookup: `resp.attrs.get("name")` /
`resp.attrs.get("id")`. -/
structure RemoteObj where
  name : String
  id : String
deriving DecidableEq, Repr

/-- An access control record on the array: its `id`, the id of the volume it
applies to, and its `initiator_group_id` attribute. -/
structure AcrRecord where
  id : String
  volId : String
  initiatorGroupId : String
deriving DecidableEq, Repr

/-- The state of the backing array visible to this module: initiator groups,
volumes, chap users, protocol endpoints and snapshots (each a name/id table)
and the current set of access control records. -/
structure Store where
  igroups : List RemoteObj
  volumes : List RemoteObj
  chapUsers : List RemoteObj
  pes : List RemoteObj
  snaps : List RemoteObj
  acrs : List AcrRecord
deriving DecidableEq, Repr

/-- One remote API call, as recorded in a trace. -/
inductive ApiCall where
  | igGet (name : String)
  | volGet (name : String)
  | acrGet (volName : String)
  | acrCreate (initiatorGroupId : String) (volId : String)
  | acrDelete (acrId : String)
  | chapGet (name : String)
  | peGet (name : String)
  | snapGet (name : String)
deriving DecidableEq, Repr

/-- Fault injection for the remote API: for each call, `some e` means the call
raises an exception whose text is `e`, `none` means it completes normally. -/
structure Faults where
  igGetErr : String → Option String
  volGetErr : String → Option String
  acrGetErr : String → Option String
  createErr : String → String → Option String
  deleteErr : String → Option String
  chapGetErr : String → Option String
  peGetErr : String → Option String
  snapGetErr : String → Option String

/-- The fault-free remote API: no call ever raises. -/
def noFaults : Faults :=
  ⟨fun _ => none, fun _ => none, fun _ => none, fun _ _ => none,
   fun _ => none, fun _ => none, fun _ => none, fun _ => none⟩

/-- The `(return_status, changed, msg)` triple every branch of the module
returns. -/
structure ReconcileResult where
  ok : Bool
  changed : Bool
  msg : String
deriving DecidableEq, Repr

/-- Modelled from the spec: `utils.is_null_or_empty`
(`module_utils/hpe_nimble.py` is not under src/).  The spec requires the
creation names to be non-empty strings, so a missing value or the empty
string counts as null-or-empty. -/
def is_null_or_empty : Option String → Bool
  | none => true
  | some s => s.isEmpty

/-- The lookup `client_obj.initiator_groups.get(id=None, name=...)`: first
initiator group with the given name, or `None`. -/
def igGet (s : Store) (name : String) : Option RemoteObj :=
  s.igroups.find? (fun g => g.name == name)

/-- The lookup `client_obj.volumes.get(id=None, name=...)`: first volume with
the given name, or `None`. -/
def volGet (s : Store) (name : String) : Option RemoteObj :=
  s.volumes.find? (fun v => v.name == name)

/-- The lookup `client_obj.access_control_records.get(id=None, vol_name=...)`:
the ACR of the volume with the given name, or `None`.  The array resolves the
volume name to its volume and returns the (most recently created) ACR bound to
it; the module assumes at most one ACR per volume. -/
def acrGetByVolName (s : Store) (volName : String) : Option AcrRecord :=
  match volGet s volName with
  | none => none
  | some v => s.acrs.find? (fun a => a.volId == v.id)

/-- Effect of a successful `access_control_records.create(initiator_group_id=...,
vol_id=...)` on the array: a new ACR for that volume and initiator group,
visible to subsequent lookups. -/
def createAcrOnStore (s : Store) (igId volId : String) : Store :=
  { s with acrs := ⟨"acr-" ++ toString s.acrs.length, volId, igId⟩ :: s.acrs }

/-- Effect of a successful `access_control_records.delete(id)` on the array. -/
def deleteAcrOnStore (s : Store) (acrId : String) : Store :=
  { s with acrs := s.acrs.filter (fun a => !(a.id == acrId)) }

/-- Static head of the message wrapping an exception caught in
`create_acr` (source line 166). -/
def createFailHead : String := "Access control record creation failed | "

/-- Static head of the message wrapping an exception caught in
`delete_acr` (source line 188). -/
def deleteFailHead : String := "Access control record deletion failed | "

def msgNoIg : String :=
  "Access control record creation failed. No initiator group provided."

def msgNoVolCreate : String :=
  "Access control record creation failed. No volume name provided."

def msgNoVolDelete : String :=
  "Access control record deletion failed. No volume name Provided."

def msgIgNotFound (ig : String) : String :=
  "Initiator Group " ++ ig ++ " is not present on array."

def msgVolNotFound (vol : String) : String :=
  "Volume name " ++ vol ++ " is not present on array."

def msgCreated (vol : String) : String :=
  "Successfully created access control record for volume " ++ vol ++ "."

def msgAlreadyPresent (vol : String) : String :=
  "Access control record is already present for volume " ++ vol ++ "."

def msgCannotCreate (vol : String) : String :=
  "Access control record for volume " ++ vol ++
    " cannot be created as it is already present."

def msgDeleted (vol : String) : String :=
  "Successfully deleted access control record for volume " ++ vol ++ "."

def msgAlreadyAbsent (vol : String) : String :=
  "Access control record for volume " ++ vol ++
    " Cannot be deleted as it is not present."

/-- The body of the `try:` block of `create_acr` (source lines 141-164).
`Except.error e` is the body raising an exception with text `e`.  The second
and third components are the store after the body and the remote calls it
issued, in order.  The keyword-argument bag (`apply_to`, `chap_user_id`, `lun`,
`pe_id`, `snap_id`, `pe_ids`) is forwarded to the create call unexamined by
the control flow; the pure helpers `remove_unchanged_or_null_args` /
`remove_null_args` only shape that bag and issue no remote call, so the bag is
not tracked here. -/
def create_acr_try (f : Faults) (s : Store) (ig vol : String) (state : String) :
    Except String ReconcileResult × Store × List ApiCall :=
  match f.igGetErr ig with
  | some e => (.error e, s, [.igGet ig])
  | none =>
  match igGet s ig with
  | none => (.ok ⟨false, false, msgIgNotFound ig⟩, s, [.igGet ig])
  | some ig_resp =>
  match f.volGetErr vol with
  | some e => (.error e, s, [.igGet ig, .volGet vol])
  | none =>
  match volGet s vol with
  | none => (.ok ⟨false, false, msgVolNotFound vol⟩, s, [.igGet ig, .volGet vol])
  | some vol_resp =>
  match f.acrGetErr vol with
  | some e => (.error e, s, [.igGet ig, .volGet vol, .acrGet vol])
  | none =>
  match acrGetByVolName s vol with
  | none =>
    match f.createErr ig_resp.id vol_resp.id with
    | some e =>
      (.error e, s,
       [.igGet ig, .volGet vol, .acrGet vol, .acrCreate ig_resp.id vol_resp.id])
    | none =>
      (.ok ⟨true, true, msgCreated vol⟩, createAcrOnStore s ig_resp.id vol_resp.id,
       [.igGet ig, .volGet vol, .acrGet vol, .acrCreate ig_resp.id vol_resp.id])
  | some acr_resp =>
    if acr_resp.initiatorGroupId = ig_resp.id then
      if state = "present" then
        (.ok ⟨true, false, msgAlreadyPresent vol⟩, s,
         [.igGet ig, .volGet vol, .acrGet vol])
      else
        (.ok ⟨false, false, msgCannotCreate vol⟩, s,
         [.igGet ig, .volGet vol, .acrGet vol])
    else
      match f.createErr ig_resp.id vol_resp.id with
      | some e =>
        (.error e, s,
         [.igGet ig, .volGet vol, .acrGet vol, .acrCreate ig_resp.id vol_resp.id])
      | none =>
        (.ok ⟨true, true, msgCreated vol⟩, createAcrOnStore s ig_resp.id vol_resp.id,
         [.igGet ig, .volGet vol, .acrGet vol, .acrCreate ig_resp.id vol_resp.id])

/-- `create_acr` (source lines 129-166): the null/empty preconditions on the
initiator group and volume names, then the `try:` body with its
`except Exception` handler turning any raised exception into the
`(False, False, "Access control record creation failed | <ex>")` triple. -/
def create_acr (f : Faults) (s : Store)
    (initiator_group volume : Option String) (state : String) :
    ReconcileResult × Store × List ApiCall :=
  if is_null_or_empty initiator_group then
    (⟨false, false, msgNoIg⟩, s, [])
  else if is_null_or_empty volume then
    (⟨false, false, msgNoVolCreate⟩, s, [])
  else
    match create_acr_try f s (initiator_group.getD "") (volume.getD "") state with
    | (.ok r, s2, t) => (r, s2, t)
    | (.error e, s2, t) => (⟨false, false, createFailHead ++ e⟩, s2, t)

/-- The body of the `try:` block of `delete_acr` (source lines 176-186). -/
def delete_acr_try (f : Faults) (s : Store) (vol : String) :
    Except String ReconcileResult × Store × List ApiCall :=
  match f.volGetErr vol with
  | some e => (.error e, s, [.volGet vol])
  | none =>
  match volGet s vol with
  | none => (.ok ⟨false, false, msgVolNotFound vol⟩, s, [.volGet vol])
  | some _ =>
  match f.acrGetErr vol with
  | some e => (.error e, s, [.volGet vol, .acrGet vol])
  | none =>
  match acrGetByVolName s vol with
  | some acr_resp =>
    match f.deleteErr acr_resp.id with
    | some e => (.error e, s, [.volGet vol, .acrGet vol, .acrDelete acr_resp.id])
    | none =>
      (.ok ⟨true, true, msgDeleted vol⟩, deleteAcrOnStore s acr_resp.id,
       [.volGet vol, .acrGet vol, .acrDelete acr_resp.id])
  | none => (.ok ⟨true, false, msgAlreadyAbsent vol⟩, s, [.volGet vol, .acrGet vol])

/-- `delete_acr` (source lines 169-188): the null/empty precondition on the
volume name, then the `try:` body with its `except Exception` handler turning
any raised exception into the
`(False, False, "Access control record deletion failed | <ex>")` triple. -/
def delete_acr (f : Faults) (s : Store) (volume : Option String) :
    ReconcileResult × Store × List ApiCall :=
  if is_null_or_empty volume then
    (⟨false, false, msgNoVolDelete⟩, s, [])
  else
    match delete_acr_try f s (volume.getD "") with
    | (.ok r, s2, t) => (r, s2, t)
    | (.error e, s2, t) => (⟨false, false, deleteFailHead ++ e⟩, s2, t)

/-- The module parameters the reconciliation reads (besides credentials):
`state` is carried separately as `DesiredState`. -/
structure AcrSpec where
  volume : Option String
  initiator_group : Option String
  chap_user : Option String
  protocol_endpoint : Option String
  snapshot : Option String
deriving Repr

/-- Modelled from the spec: `utils.get_chap_user_id`
(`module_utils/hpe_nimble.py` is not under src/).  An absent name means no
resolution is attempted; otherwise a lookup call is issued and a lookup
failure or exception is silently dropped into a null identifier. -/
def get_chap_user_id (f : Faults) (s : Store) (name : Option String) :
    Option String × List ApiCall :=
  if is_null_or_empty name then (none, [])
  else
    let n := name.getD ""
    match f.chapGetErr n with
    | some _ => (none, [.chapGet n])
    | none => ((s.chapUsers.find? (fun c => c.name == n)).map (·.id), [.chapGet n])

/-- Modelled from the spec: `utils.get_pe_id` (`module_utils/hpe_nimble.py` is
not under src/), with the same best-effort rule as `get_chap_user_id`. -/
def get_pe_id (f : Faults) (s : Store) (name : Option String) :
    Option String × List ApiCall :=
  if is_null_or_empty name then (none, [])
  else
    let n := name.getD ""
    match f.peGetErr n with
    | some _ => (none, [.peGet n])
    | none => ((s.pes.find? (fun p => p.name == n)).map (·.id), [.peGet n])

/-- Modelled from the spec: `utils.get_snapshot_id`
(`module_utils/hpe_nimble.py` is not under src/), with the same best-effort
rule as `get_chap_user_id`. -/
def get_snapshot_id (f : Faults) (s : Store) (name : Option String) :
    Option String × List ApiCall :=
  if is_null_or_empty name then (none, [])
  else
    let n := name.getD ""
    match f.snapGetErr n with
    | some _ => (none, [.snapGet n])
    | none => ((s.snaps.find? (fun p => p.name == n)).map (·.id), [.snapGet n])

/-- The state dispatch of `main` (source lines 276-290).  For
`create`/`present` the call site first resolves the optional chap-user,
protocol-endpoint and snapshot names (in the evaluation order of the keyword
arguments: `chap_user_id`, then `pe_id`, then `snap_id`) and then runs
`create_acr`; for `absent` it runs `delete_acr`. -/
def reconcile (f : Faults) (s : Store) (spec : AcrSpec) (d : DesiredState) :
    ReconcileResult × Store × List ApiCall :=
  match d with
  | .create | .present =>
    let chap := get_chap_user_id f s spec.chap_user
    let pe := get_pe_id f s spec.protocol_endpoint
    let snap := get_snapshot_id f s spec.snapshot
    let out := create_acr f s spec.initiator_group spec.volume d.str
    (out.1, out.2.1, chap.2 ++ pe.2 ++ snap.2 ++ out.2.2)
  | .absent => delete_acr f s spec.volume

/-- True on the mutating calls (ACR create and delete), false on lookups. -/
def ApiCall.isMutation : ApiCall → Bool
  | .acrCreate _ _ => true
  | .acrDelete _ => true
  | _ => false

/-- True only on ACR create calls. -/
def ApiCall.isCreate : ApiCall → Bool
  | .acrCreate _ _ => true
  | _ => false

/-- A mutation call that completed successfully under the fault oracle `f`. -/
def mutationOk (f : Faults) : ApiCall → Bool
  | .acrCreate i v => (f.createErr i v).isNone
  | .acrDelete a => (f.deleteErr a).isNone
  | _ => false

/-- Fixture: a small array with one initiator group, one volume and one chap
user, and no ACR. -/
def egStore : Store := ⟨[⟨"ig1", "g1"⟩], [⟨"v1", "vid1"⟩], [⟨"u1", "c1"⟩], [], [], []⟩

/-- Fixture: a spec naming the fixture volume and initiator group. -/
def egSpec : AcrSpec := ⟨some "v1", some "ig1", none, none, none⟩

/-- Fixture: a spec with every field empty. -/
def emptySpec : AcrSpec := ⟨none, none, none, none, none⟩

/-- Fixture: the fixture array with an ACR binding `v1` to `ig1` already
present. -/
def egStoreAcr : Store :=
  ⟨[⟨"ig1", "g1"⟩], [⟨"v1", "vid1"⟩], [], [], [], [⟨"a1", "vid1", "g1"⟩]⟩

/-- Fixture: a remote API whose initiator-group and volume lookups raise. -/
def boomFaults : Faults :=
  { noFaults with igGetErr := fun _ => some "boom", volGetErr := fun _ => some "boom" }

/-- Fixture: an array knowing none of the fixture names. -/
def bareStore : Store := ⟨[], [], [], [], [], []⟩


/-- The function `create_acr` never returns a triple with `ok` false and `changed` true. -/
theorem create_acr_ok_or (f : Faults) (s : Store) (ig vol : Option String) (st : String) :
    (create_acr f s ig vol st).1.ok = true ∨ (create_acr f s ig vol st).1.changed = false := by
  unfold create_acr
  repeat' split
  all_goals try simp
  all_goals
    rename_i heq
  all_goals
    unfold create_acr_try at heq
  all_goals
    repeat' split at heq
  all_goals
    first
      | (simp only [Prod.mk.injEq, Except.ok.injEq] at heq;
         obtain ⟨h1, h2, h3⟩ := heq; subst h1; simp)
      | (simp at heq)

/-- The function `delete_acr` never returns a triple with `ok` false and `changed` true. -/
theorem delete_acr_ok_or (f : Faults) (s : Store) (vol : Option String) :
    (delete_acr f s vol).1.ok = true ∨ (delete_acr f s vol).1.changed = false := by
  unfold delete_acr
  repeat' split
  all_goals try simp
  all_goals
    rename_i heq
  all_goals
    unfold delete_acr_try at heq
  all_goals
    repeat' split at heq
  all_goals
    first
      | (simp only [Prod.mk.injEq, Except.ok.injEq] at heq;
         obtain ⟨h1, h2, h3⟩ := heq; subst h1; simp)
      | (simp at heq)

/-- On `create`/`present`, the result triple and the final store of `reconcile`
are those of `create_acr` (the optional chap-user / protocol-endpoint /
snapshot resolutions only contribute lookup calls to the trace). -/
theorem reconcile_cp_eq (f : Faults) (s : Store) (spec : AcrSpec) (d : DesiredState)
    (hd : d = DesiredState.create ∨ d = DesiredState.present) :
    (reconcile f s spec d).1 = (create_acr f s spec.initiator_group spec.volume d.str).1 ∧
    (reconcile f s spec d).2.1 = (create_acr f s spec.initiator_group spec.volume d.str).2.1 ∧
    (reconcile f s spec d).2.2 =
      (get_chap_user_id f s spec.chap_user).2 ++ (get_pe_id f s spec.protocol_endpoint).2 ++
      (get_snapshot_id f s spec.snapshot).2 ++
      (create_acr f s spec.initiator_group spec.volume d.str).2.2 := by
  rcases hd with h | h <;> subst h <;> exact ⟨rfl, rfl, by simp [reconcile]⟩

/-- C1: for every desired state, input spec, fault behaviour and backing-store
state, the triple returned by the reconciliation satisfies: `ok = false`
implies `changed = false`; no return path reports a failed operation together
with a mutation. -/
theorem c1_ok_false_implies_changed_false (f : Faults) (s : Store) (spec : AcrSpec)
    (d : DesiredState) (h : (reconcile f s spec d).1.ok = false) :
    (reconcile f s spec d).1.changed = false := by
  cases d
  case absent =>
    rcases delete_acr_ok_or f s spec.volume with hok | hch
    · have h2 : (delete_acr f s spec.volume).1.ok = false := h
      rw [hok] at h2
      exact absurd h2 (by simp)
    · exact hch
  case create =>
    rcases create_acr_ok_or f s spec.initiator_group spec.volume "create" with hok | hch
    · have h2 : (create_acr f s spec.initiator_group spec.volume "create").1.ok = false := h
      rw [hok] at h2
      exact absurd h2 (by simp)
    · exact hch
  case present =>
    rcases create_acr_ok_or f s spec.initiator_group spec.volume "present" with hok | hch
    · have h2 : (create_acr f s spec.initiator_group spec.volume "present").1.ok = false := h
      rw [hok] at h2
      exact absurd h2 (by simp)
    · exact hch

/-- Witness for C1 at a concrete input: the empty spec under `create` fails
with `ok = false`, and the theorem yields `changed = false` there. -/
theorem c1_witness :
    (reconcile noFaults egStore emptySpec DesiredState.create).1.ok = false ∧
    (reconcile noFaults egStore emptySpec DesiredState.create).1.changed = false :=
  ⟨rfl, c1_ok_false_implies_changed_false noFaults egStore emptySpec DesiredState.create rfl⟩

/-- C10: when the state is `create` or `present` and both the initiator-group
and the volume names are empty, the returned message is the
missing-initiator-group one: the initiator-group precondition is checked
before the volume precondition (source lines 136-139). -/
theorem c10_ig_precondition_first (f : Faults) (s : Store) (spec : AcrSpec)
    (hig : is_null_or_empty spec.initiator_group = true)
    (_hvol : is_null_or_empty spec.volume = true) :
    (reconcile f s spec DesiredState.create).1 = ⟨false, false, msgNoIg⟩ ∧
    (reconcile f s spec DesiredState.present).1 = ⟨false, false, msgNoIg⟩ := by
  refine ⟨?_, ?_⟩ <;>
    · show (create_acr f s spec.initiator_group spec.volume _).1 = _
      simp [create_acr, hig]

/-- Witness for C10 at the all-empty spec. -/
theorem c10_witness :
    is_null_or_empty emptySpec.initiator_group = true ∧
    is_null_or_empty emptySpec.volume = true ∧
    (reconcile noFaults egStore emptySpec DesiredState.create).1 = ⟨false, false, msgNoIg⟩ ∧
    (reconcile noFaults egStore emptySpec DesiredState.present).1 = ⟨false, false, msgNoIg⟩ :=
  ⟨rfl, rfl,
    (c10_ig_precondition_first noFaults egStore emptySpec rfl rfl).1,
    (c10_ig_precondition_first noFaults egStore emptySpec rfl rfl).2⟩

/-- C8: in the create/present branch the initiator-group lookup comes first:
when it misses, the result is the initiator-group-specific failure and the
volume lookup is never issued; when the initiator group resolves and the
volume lookup misses, the result is the volume-specific failure, with the
trace showing the initiator-group lookup before the volume lookup. -/
theorem c8_lookup_order_and_messages (f : Faults) (s : Store) (ig vol st : String)
    (hig : ig.isEmpty = false) (hvol : vol.isEmpty = false) :
    (f.igGetErr ig = none → igGet s ig = none →
      create_acr f s (some ig) (some vol) st
        = (⟨false, false, msgIgNotFound ig⟩, s, [ApiCall.igGet ig])) ∧
    (∀ igr, f.igGetErr ig = none → igGet s ig = some igr →
      f.volGetErr vol = none → volGet s vol = none →
      create_acr f s (some ig) (some vol) st
        = (⟨false, false, msgVolNotFound vol⟩, s, [ApiCall.igGet ig, ApiCall.volGet vol])) := by
  constructor
  · intro he h1
    simp [create_acr, create_acr_try, is_null_or_empty, hig, hvol, he, h1]
  · intro igr he1 h1 he2 h2
    simp [create_acr, create_acr_try, is_null_or_empty, hig, hvol, he1, h1, he2, h2]

/-- Witness for C8: an unknown initiator group, and a known initiator group
with an unknown volume, on the fixture store. -/
theorem c8_witness :
    create_acr noFaults egStore (some "ig9") (some "v1") "present"
      = (⟨false, false, msgIgNotFound "ig9"⟩, egStore, [ApiCall.igGet "ig9"]) ∧
    create_acr noFaults egStore (some "ig1") (some "v9") "present"
      = (⟨false, false, msgVolNotFound "v9"⟩, egStore,
         [ApiCall.igGet "ig1", ApiCall.volGet "v9"]) :=
  ⟨(c8_lookup_order_and_messages noFaults egStore "ig9" "v1" "present" rfl rfl).1 rfl rfl,
   (c8_lookup_order_and_messages noFaults egStore "ig1" "v9" "present" rfl rfl).2
     ⟨"ig1", "g1"⟩ rfl rfl rfl rfl⟩

/-- C2: when the existing ACR of the volume is bound to the resolved target
initiator group, `present` reports an idempotent no-op `(true, false)`,
`create` reports the strict-create conflict `(false, false)`, and in both
cases the trace holds the three lookups only: no create call is issued. -/
theorem c2_strict_create_vs_present (f : Faults) (s : Store) (ig vol : String)
    (igr volr : RemoteObj) (acr : AcrRecord)
    (hig : ig.isEmpty = false) (hvol : vol.isEmpty = false)
    (he1 : f.igGetErr ig = none) (h1 : igGet s ig = some igr)
    (he2 : f.volGetErr vol = none) (h2 : volGet s vol = some volr)
    (he3 : f.acrGetErr vol = none) (h3 : acrGetByVolName s vol = some acr)
    (hm : acr.initiatorGroupId = igr.id) :
    create_acr f s (some ig) (some vol) "present"
      = (⟨true, false, msgAlreadyPresent vol⟩, s,
         [ApiCall.igGet ig, ApiCall.volGet vol, ApiCall.acrGet vol]) ∧
    create_acr f s (some ig) (some vol) "create"
      = (⟨false, false, msgCannotCreate vol⟩, s,
         [ApiCall.igGet ig, ApiCall.volGet vol, ApiCall.acrGet vol]) := by
  constructor <;>
    simp [create_acr, create_acr_try, is_null_or_empty, hig, hvol,
          he1, h1, he2, h2, he3, h3, hm]

/-- Witness for C2 on a store whose ACR already binds `v1` to `ig1`. -/
theorem c2_witness :
    create_acr noFaults egStoreAcr (some "ig1") (some "v1") "present"
      = (⟨true, false, msgAlreadyPresent "v1"⟩, egStoreAcr,
         [ApiCall.igGet "ig1", ApiCall.volGet "v1", ApiCall.acrGet "v1"]) ∧
    create_acr noFaults egStoreAcr (some "ig1") (some "v1") "create"
      = (⟨false, false, msgCannotCreate "v1"⟩, egStoreAcr,
         [ApiCall.igGet "ig1", ApiCall.volGet "v1", ApiCall.acrGet "v1"]) :=
  c2_strict_create_vs_present noFaults egStoreAcr "ig1" "v1"
    ⟨"ig1", "g1"⟩ ⟨"v1", "vid1"⟩ ⟨"a1", "vid1", "g1"⟩
    rfl rfl rfl rfl rfl rfl rfl rfl rfl

/-- C3: with resolvable, non-empty initiator group and volume, when the volume
has no ACR or its ACR is bound to a different initiator group, `create_acr`
issues exactly one create call carrying the resolved initiator-group id and
volume id, and on success returns `(true, true, created)`. -/
theorem c3_create_on_missing_or_differing (f : Faults) (s : Store) (ig vol st : String)
    (igr volr : RemoteObj)
    (hig : ig.isEmpty = false) (hvol : vol.isEmpty = false)
    (he1 : f.igGetErr ig = none) (h1 : igGet s ig = some igr)
    (he2 : f.volGetErr vol = none) (h2 : volGet s vol = some volr)
    (he3 : f.acrGetErr vol = none)
    (hdiff : ∀ a, acrGetByVolName s vol = some a → a.initiatorGroupId ≠ igr.id)
    (hc : f.createErr igr.id volr.id = none) :
    create_acr f s (some ig) (some vol) st
      = (⟨true, true, msgCreated vol⟩, createAcrOnStore s igr.id volr.id,
         [ApiCall.igGet ig, ApiCall.volGet vol, ApiCall.acrGet vol,
          ApiCall.acrCreate igr.id volr.id]) ∧
    ((create_acr f s (some ig) (some vol) st).2.2.filter ApiCall.isCreate)
      = [ApiCall.acrCreate igr.id volr.id] := by
  have key : create_acr f s (some ig) (some vol) st
      = (⟨true, true, msgCreated vol⟩, createAcrOnStore s igr.id volr.id,
         [ApiCall.igGet ig, ApiCall.volGet vol, ApiCall.acrGet vol,
          ApiCall.acrCreate igr.id volr.id]) := by
    rcases h3 : acrGetByVolName s vol with _ | a
    · simp [create_acr, create_acr_try, is_null_or_empty, hig, hvol,
            he1, h1, he2, h2, he3, h3, hc]
    · have hne := hdiff a h3
      simp [create_acr, create_acr_try, is_null_or_empty, hig, hvol,
            he1, h1, he2, h2, he3, h3, hne, hc]
  refine ⟨key, ?_⟩
  rw [key]
  simp [ApiCall.isCreate]

/-- Witness for C3 on the fixture store, which has no ACR for `v1`. -/
theorem c3_witness :
    create_acr noFaults egStore (some "ig1") (some "v1") "present"
      = (⟨true, true, msgCreated "v1"⟩, createAcrOnStore egStore "g1" "vid1",
         [ApiCall.igGet "ig1", ApiCall.volGet "v1", ApiCall.acrGet "v1",
          ApiCall.acrCreate "g1" "vid1"]) ∧
    ((create_acr noFaults egStore (some "ig1") (some "v1") "present").2.2.filter
        ApiCall.isCreate)
      = [ApiCall.acrCreate "g1" "vid1"] :=
  c3_create_on_missing_or_differing noFaults egStore "ig1" "v1" "present"
    ⟨"ig1", "g1"⟩ ⟨"v1", "vid1"⟩ rfl rfl rfl rfl rfl rfl rfl
    (fun _ h => Option.noConfusion h) rfl

/-- C4: on `absent` with a non-empty, resolvable volume name: when an ACR
exists for the volume, one delete call with the identifier of that ACR is issued
and the result is `(true, true, deleted)`; when none exists, no delete call
is issued and the result is `(true, false, already absent)`. -/
theorem c4_absent_delete_or_noop (f : Faults) (s : Store) (spec : AcrSpec)
    (vol : String) (volr : RemoteObj)
    (hv : spec.volume = some vol) (hvol : vol.isEmpty = false)
    (he1 : f.volGetErr vol = none) (h1 : volGet s vol = some volr)
    (he2 : f.acrGetErr vol = none) :
    (∀ acr, acrGetByVolName s vol = some acr → f.deleteErr acr.id = none →
      reconcile f s spec DesiredState.absent
        = (⟨true, true, msgDeleted vol⟩, deleteAcrOnStore s acr.id,
           [ApiCall.volGet vol, ApiCall.acrGet vol, ApiCall.acrDelete acr.id])) ∧
    (acrGetByVolName s vol = none →
      reconcile f s spec DesiredState.absent
        = (⟨true, false, msgAlreadyAbsent vol⟩, s,
           [ApiCall.volGet vol, ApiCall.acrGet vol])) := by
  constructor
  · intro acr hacr hd
    show delete_acr f s spec.volume = _
    rw [hv]
    simp [delete_acr, delete_acr_try, is_null_or_empty, hvol, he1, h1, he2, hacr, hd]
  · intro hacr
    show delete_acr f s spec.volume = _
    rw [hv]
    simp [delete_acr, delete_acr_try, is_null_or_empty, hvol, he1, h1, he2, hacr]

/-- Witness for C4: deletion on the store holding the ACR, and the no-op on
the store without it. -/
theorem c4_witness :
    reconcile noFaults egStoreAcr egSpec DesiredState.absent
      = (⟨true, true, msgDeleted "v1"⟩, deleteAcrOnStore egStoreAcr "a1",
         [ApiCall.volGet "v1", ApiCall.acrGet "v1", ApiCall.acrDelete "a1"]) ∧
    reconcile noFaults egStore egSpec DesiredState.absent
      = (⟨true, false, msgAlreadyAbsent "v1"⟩, egStore,
         [ApiCall.volGet "v1", ApiCall.acrGet "v1"]) :=
  ⟨(c4_absent_delete_or_noop noFaults egStoreAcr egSpec "v1" ⟨"v1", "vid1"⟩
      rfl rfl rfl rfl rfl).1 ⟨"a1", "vid1", "g1"⟩ rfl rfl,
   (c4_absent_delete_or_noop noFaults egStore egSpec "v1" ⟨"v1", "vid1"⟩
      rfl rfl rfl rfl rfl).2 rfl⟩

/-- C7: an exception raised anywhere inside the `try:` bodies is caught at the
reconciler boundary and converted into a `(false, false, message)` triple whose
message is the static creation-failed / deletion-failed head followed by the
underlying error text; no exception escapes `create_acr` or `delete_acr`,
whose embeddings are total functions returning a triple. -/
theorem c7_exceptions_wrapped (f : Faults) (s s2 : Store) (ig vol st e : String)
    (t : List ApiCall) (hig : ig.isEmpty = false) (hvol : vol.isEmpty = false) :
    (create_acr_try f s ig vol st = (Except.error e, s2, t) →
      create_acr f s (some ig) (some vol) st
        = (⟨false, false, createFailHead ++ e⟩, s2, t)) ∧
    (delete_acr_try f s vol = (Except.error e, s2, t) →
      delete_acr f s (some vol)
        = (⟨false, false, deleteFailHead ++ e⟩, s2, t)) := by
  constructor <;> intro h <;>
    simp [create_acr, delete_acr, is_null_or_empty, hig, hvol, h]

/-- Witness for C7: under `boomFaults`, both bodies raise on their first remote
call and both wrappers return the wrapped failure triple. -/
theorem c7_witness :
    create_acr boomFaults egStore (some "ig1") (some "v1") "present"
      = (⟨false, false, createFailHead ++ "boom"⟩, egStore, [ApiCall.igGet "ig1"]) ∧
    delete_acr boomFaults egStore (some "v1")
      = (⟨false, false, deleteFailHead ++ "boom"⟩, egStore, [ApiCall.volGet "v1"]) :=
  ⟨(c7_exceptions_wrapped boomFaults egStore egStore "ig1" "v1" "present" "boom"
      [ApiCall.igGet "ig1"] rfl rfl).1 rfl,
   (c7_exceptions_wrapped boomFaults egStore egStore "ig1" "v1" "present" "boom"
      [ApiCall.volGet "v1"] rfl rfl).2 rfl⟩

/-- C6 (amended): with an empty/null `volume` and the optional chap-user,
protocol-endpoint and snapshot names absent, every desired state returns
`ok = false`, `changed = false` with an empty remote-call trace.  (With an
optional name present, `main` resolves it remotely before `create_acr` runs,
so the unamended zero-call claim fails; see the counterexample.) -/
theorem c6_missing_volume_no_calls (f : Faults) (s : Store) (spec : AcrSpec)
    (d : DesiredState)
    (hv : is_null_or_empty spec.volume = true)
    (hc : is_null_or_empty spec.chap_user = true)
    (hp : is_null_or_empty spec.protocol_endpoint = true)
    (hs : is_null_or_empty spec.snapshot = true) :
    (reconcile f s spec d).1.ok = false ∧
    (reconcile f s spec d).1.changed = false ∧
    (reconcile f s spec d).2.2 = [] := by
  cases d
  case absent =>
    refine ⟨?_, ?_, ?_⟩ <;>
      · show _ = _
        simp [reconcile, delete_acr, hv]
  all_goals
    cases hig : is_null_or_empty spec.initiator_group <;>
      refine ⟨?_, ?_, ?_⟩ <;>
        simp [reconcile, get_chap_user_id, get_pe_id, get_snapshot_id,
              create_acr, hv, hc, hp, hs, hig]

/-- Witness for the amended C6: volume missing, optional names absent. -/
theorem c6_witness :
    (reconcile noFaults egStore ⟨none, some "ig1", none, none, none⟩
        DesiredState.present).1.ok = false ∧
    (reconcile noFaults egStore ⟨none, some "ig1", none, none, none⟩
        DesiredState.present).1.changed = false ∧
    (reconcile noFaults egStore ⟨none, some "ig1", none, none, none⟩
        DesiredState.present).2.2 = [] :=
  c6_missing_volume_no_calls noFaults egStore ⟨none, some "ig1", none, none, none⟩
    DesiredState.present rfl rfl rfl rfl

/-- Counterexample to C6 as stated: with `volume` empty but a chap-user name
supplied, the run still fails with `ok = false`, yet a remote chap-user lookup
is issued before the failure returns, so the trace is not empty. -/
theorem c6_counterexample :
    is_null_or_empty (⟨none, some "ig1", some "u1", none, none⟩ : AcrSpec).volume = true ∧
    (reconcile noFaults egStore ⟨none, some "ig1", some "u1", none, none⟩
        DesiredState.present).1.ok = false ∧
    (reconcile noFaults egStore ⟨none, some "ig1", some "u1", none, none⟩
        DesiredState.present).1.changed = false ∧
    (reconcile noFaults egStore ⟨none, some "ig1", some "u1", none, none⟩
        DesiredState.present).2.2 = [ApiCall.chapGet "u1"] ∧
    (reconcile noFaults egStore ⟨none, some "ig1", some "u1", none, none⟩
        DesiredState.present).2.2 ≠ [] := by
  exact ⟨rfl, rfl, rfl, rfl, by decide⟩

/-- The trace of the modelled optional chap-user resolution holds no
successful mutation call. -/
theorem chap_trace_no_mutation (f : Faults) (s : Store) (n : Option String) :
    (get_chap_user_id f s n).2.any (mutationOk f) = false := by
  unfold get_chap_user_id
  repeat' split <;> simp [mutationOk]

/-- The trace of the modelled optional protocol-endpoint resolution holds no
successful mutation call. -/
theorem pe_trace_no_mutation (f : Faults) (s : Store) (n : Option String) :
    (get_pe_id f s n).2.any (mutationOk f) = false := by
  unfold get_pe_id
  repeat' split <;> simp [mutationOk]

/-- The trace of the modelled optional snapshot resolution holds no
successful mutation call. -/
theorem snap_trace_no_mutation (f : Faults) (s : Store) (n : Option String) :
    (get_snapshot_id f s n).2.any (mutationOk f) = false := by
  unfold get_snapshot_id
  repeat' split <;> simp [mutationOk]

/-- For `create_acr`, `changed` is true exactly when the trace holds a mutation
call that completed successfully, and on every `changed = false` path the
store is unchanged. -/
theorem create_acr_changed_iff (f : Faults) (s : Store) (ig vol : Option String)
    (st : String) :
    ((create_acr f s ig vol st).1.changed = true ↔
      (create_acr f s ig vol st).2.2.any (mutationOk f) = true) ∧
    ((create_acr f s ig vol st).1.changed = false →
      (create_acr f s ig vol st).2.1 = s) := by
  unfold create_acr
  repeat' split
  all_goals try (rename_i heq; unfold create_acr_try at heq; repeat' split at heq)
  all_goals
    first
      | (simp only [Prod.mk.injEq, Except.ok.injEq, Except.error.injEq] at heq;
         obtain ⟨h1, h2, h3⟩ := heq; subst h1; subst h2; subst h3;
         simp_all [mutationOk])
      | (simp at heq)
      | (constructor <;> simp)

/-- For `delete_acr`, `changed` is true exactly when the trace holds a mutation
call that completed successfully, and on every `changed = false` path the
store is unchanged. -/
theorem delete_acr_changed_iff (f : Faults) (s : Store) (vol : Option String) :
    ((delete_acr f s vol).1.changed = true ↔
      (delete_acr f s vol).2.2.any (mutationOk f) = true) ∧
    ((delete_acr f s vol).1.changed = false → (delete_acr f s vol).2.1 = s) := by
  unfold delete_acr
  repeat' split
  all_goals try (rename_i heq; unfold delete_acr_try at heq; repeat' split at heq)
  all_goals
    first
      | (simp only [Prod.mk.injEq, Except.ok.injEq, Except.error.injEq] at heq;
         obtain ⟨h1, h2, h3⟩ := heq; subst h1; subst h2; subst h3;
         simp_all [mutationOk])
      | (simp at heq)
      | (constructor <;> simp)

/-- C9: for every input, fault behaviour and backing store, the returned
`changed` flag is true exactly when a mutation call (ACR create or delete)
appears in the trace and completed successfully; and on every path returning
`changed = false` the backing store is left unchanged. -/
theorem c9_changed_iff_mutation (f : Faults) (s : Store) (spec : AcrSpec)
    (d : DesiredState) :
    ((reconcile f s spec d).1.changed = true ↔
      (reconcile f s spec d).2.2.any (mutationOk f) = true) ∧
    ((reconcile f s spec d).1.changed = false → (reconcile f s spec d).2.1 = s) := by
  cases d
  case absent => exact delete_acr_changed_iff f s spec.volume
  case create =>
    obtain ⟨e1, e2, e3⟩ := reconcile_cp_eq f s spec DesiredState.create (Or.inl rfl)
    have hcore := create_acr_changed_iff f s spec.initiator_group spec.volume "create"
    constructor
    · rw [e1, e3, List.any_append, List.any_append, List.any_append,
          chap_trace_no_mutation, pe_trace_no_mutation, snap_trace_no_mutation]
      simp only [Bool.false_or]
      exact hcore.1
    · rw [e1, e2]
      exact hcore.2
  case present =>
    obtain ⟨e1, e2, e3⟩ := reconcile_cp_eq f s spec DesiredState.present (Or.inr rfl)
    have hcore := create_acr_changed_iff f s spec.initiator_group spec.volume "present"
    constructor
    · rw [e1, e3, List.any_append, List.any_append, List.any_append,
          chap_trace_no_mutation, pe_trace_no_mutation, snap_trace_no_mutation]
      simp only [Bool.false_or]
      exact hcore.1
    · rw [e1, e2]
      exact hcore.2

/-- Witness for C9: the fixture run that creates an ACR has `changed = true`
with a successful create in its trace, and the strict-create conflict run has
`changed = false` and leaves the store unchanged. -/
theorem c9_witness :
    ((reconcile noFaults egStore egSpec DesiredState.present).2.2.any
        (mutationOk noFaults) = true →
      (reconcile noFaults egStore egSpec DesiredState.present).1.changed = true) ∧
    (reconcile noFaults egStoreAcr egSpec DesiredState.create).2.1 = egStoreAcr :=
  ⟨fun h => (c9_changed_iff_mutation noFaults egStore egSpec DesiredState.present).1.mpr h,
   (c9_changed_iff_mutation noFaults egStoreAcr egSpec DesiredState.create).2 rfl⟩

/-- A create on the array does not touch the initiator-group table. -/
theorem igGet_createAcrOnStore (s : Store) (i v n : String) :
    igGet (createAcrOnStore s i v) n = igGet s n := rfl

/-- A create on the array does not touch the volume table. -/
theorem volGet_createAcrOnStore (s : Store) (i v n : String) :
    volGet (createAcrOnStore s i v) n = volGet s n := rfl

/-- After a successful create for a resolved volume, the ACR lookup by that
volume name returns the newly created record. -/
theorem acrGet_createAcrOnStore (s : Store) (volr : RemoteObj) (i vol : String)
    (h : volGet s vol = some volr) :
    acrGetByVolName (createAcrOnStore s i volr.id) vol
      = some ⟨"acr-" ++ toString s.acrs.length, volr.id, i⟩ := by
  unfold acrGetByVolName
  rw [show volGet (createAcrOnStore s i volr.id) vol = some volr from h]
  show List.find? _ ((⟨"acr-" ++ toString s.acrs.length, volr.id, i⟩ : AcrRecord) :: s.acrs) = _
  rw [List.find?_cons_of_pos _ (by simp)]

/-- Running `create_acr` with state `present` again, on the store its first
successful run produced, reports the idempotent no-op. -/
theorem create_acr_present_idem (s : Store) (ig? vol? : Option String)
    (h : (create_acr noFaults s ig? vol? "present").1.ok = true) :
    (create_acr noFaults (create_acr noFaults s ig? vol? "present").2.1
        ig? vol? "present").1
      = ⟨true, false, msgAlreadyPresent (vol?.getD "")⟩ := by
  by_cases hig : is_null_or_empty ig? = true
  · exact absurd h (by simp [create_acr, hig])
  rw [Bool.not_eq_true] at hig
  by_cases hvol : is_null_or_empty vol? = true
  · exact absurd h (by simp [create_acr, hig, hvol])
  rw [Bool.not_eq_true] at hvol
  rcases h1 : igGet s (ig?.getD "") with _ | igr
  · exact absurd h (by simp [create_acr, create_acr_try, noFaults, hig, hvol, h1])
  rcases h2 : volGet s (vol?.getD "") with _ | volr
  · exact absurd h (by simp [create_acr, create_acr_try, noFaults, hig, hvol, h1, h2])
  rcases h3 : acrGetByVolName s (vol?.getD "") with _ | acr
  · -- no existing ACR: the first run created one
    have hstep : (create_acr noFaults s ig? vol? "present").2.1
        = createAcrOnStore s igr.id volr.id := by
      simp [create_acr, create_acr_try, noFaults, hig, hvol, h1, h2, h3]
    rw [hstep]
    have hg2 : igGet (createAcrOnStore s igr.id volr.id) (ig?.getD "") = some igr := h1
    have hv2 : volGet (createAcrOnStore s igr.id volr.id) (vol?.getD "") = some volr := h2
    have ha2 := acrGet_createAcrOnStore s volr igr.id (vol?.getD "") h2
    simp [create_acr, create_acr_try, noFaults, hig, hvol, hg2, hv2, ha2]
  · by_cases hm : acr.initiatorGroupId = igr.id
    · -- already present: the first run changed nothing
      have hstep : (create_acr noFaults s ig? vol? "present").2.1 = s := by
        simp [create_acr, create_acr_try, noFaults, hig, hvol, h1, h2, h3, hm]
      rw [hstep]
      simp [create_acr, create_acr_try, noFaults, hig, hvol, h1, h2, h3, hm]
    · -- bound to a different group: the first run created a new ACR
      have hstep : (create_acr noFaults s ig? vol? "present").2.1
          = createAcrOnStore s igr.id volr.id := by
        simp [create_acr, create_acr_try, noFaults, hig, hvol, h1, h2, h3, hm]
      rw [hstep]
      have hg2 : igGet (createAcrOnStore s igr.id volr.id) (ig?.getD "") = some igr := h1
      have hv2 : volGet (createAcrOnStore s igr.id volr.id) (vol?.getD "") = some volr := h2
      have ha2 := acrGet_createAcrOnStore s volr igr.id (vol?.getD "") h2
      simp [create_acr, create_acr_try, noFaults, hig, hvol, hg2, hv2, ha2]

/-- C5 (amended): for every spec and backing store, under the fault-free
remote API, if a first `present` reconcile returns `ok = true` then a second
`present` reconcile of the same spec against the resulting store returns
`ok = true` and `changed = false`. -/
theorem c5_present_idempotent (s : Store) (spec : AcrSpec)
    (h : (reconcile noFaults s spec DesiredState.present).1.ok = true) :
    (reconcile noFaults (reconcile noFaults s spec DesiredState.present).2.1
        spec DesiredState.present).1.ok = true ∧
    (reconcile noFaults (reconcile noFaults s spec DesiredState.present).2.1
        spec DesiredState.present).1.changed = false := by
  have key := create_acr_present_idem s spec.initiator_group spec.volume h
  constructor
  · show (create_acr noFaults
        (create_acr noFaults s spec.initiator_group spec.volume "present").2.1
        spec.initiator_group spec.volume "present").1.ok = true
    rw [key]
  · show (create_acr noFaults
        (create_acr noFaults s spec.initiator_group spec.volume "present").2.1
        spec.initiator_group spec.volume "present").1.changed = false
    rw [key]

/-- Witness for the amended C5: on the fixture store the first `present` run
creates the ACR and succeeds; the second run reports no change. -/
theorem c5_witness :
    (reconcile noFaults egStore egSpec DesiredState.present).1.ok = true ∧
    (reconcile noFaults (reconcile noFaults egStore egSpec DesiredState.present).2.1
        egSpec DesiredState.present).1.ok = true ∧
    (reconcile noFaults (reconcile noFaults egStore egSpec DesiredState.present).2.1
        egSpec DesiredState.present).1.changed = false :=
  ⟨rfl, (c5_present_idempotent egStore egSpec rfl).1,
   (c5_present_idempotent egStore egSpec rfl).2⟩

/-- Counterexample to C5 as stated: on an array without the named initiator
group, the first `present` reconcile issues no mutation at all (so its
"create, if any" trivially succeeded and is reflected in the store), yet the
second reconcile of the same spec returns `ok = false`, not `ok = true`. -/
theorem c5_counterexample :
    (reconcile noFaults bareStore egSpec DesiredState.present).2.2.any
        ApiCall.isMutation = false ∧
    (reconcile noFaults (reconcile noFaults bareStore egSpec DesiredState.present).2.1
        egSpec DesiredState.present).1.ok = false :=
  ⟨rfl, rfl⟩
